import Mathlib

/-!
Shallow embedding of `esp-hal-smartled` (`src/esp-hal-smartled/src/lib.rs`):
a smart-LED driver that encodes RGB colors into RMT pulse words and hands
them to a transmit channel, in a blocking (`SmartLedsAdapter`) and an
asynchronous (`SmartLedsAdapterAsync`) variant.

Modelling conventions:
- `u32`/`u8`/`usize` values are `Nat`; the one truncating cast in the source
  (`as u16` in `led_pulses_for_clock`) is modelled explicitly as `% 65536`.
- The mutable buffer iterator (`core::slice::IterMut<u32>` walked with
  `next()`) is modelled as a `BufWriter`: the underlying list plus the index
  of the next free slot.  Rust's early-return `?` on a partially mutated
  buffer is modelled by the result type `WRes`, whose error constructor
  carries the partially written state.
- The external RMT peripheral (crate `esp-hal`, not part of this repository)
  is kept abstract: `PulseCode.new` records its four arguments, a channel is
  an opaque token, and the outcome of a transmission is a parameter of the
  `write` functions.  Each `write` returns, besides its result, the list of
  data slices passed to the peripheral's `transmit`, in call order.
-/

/-- External (`esp-hal`) output level. -/
inductive Level where
  | low
  | high
deriving DecidableEq

/-- External (`esp-hal`) RMT pulse code word, kept abstract as the four
arguments handed to its constructor. -/
structure PulseCode where
  level1 : Level
  length1 : Nat
  level2 : Level
  length2 : Nat
deriving DecidableEq

/-- External (`esp-hal`) `PulseCode::new`. -/
def PulseCode.new (level1 : Level) (length1 : Nat) (level2 : Level)
    (length2 : Nat) : PulseCode :=
  ⟨level1, length1, level2, length2⟩

/-- External (`esp-hal`) RMT error, abstract cause. -/
inductive RmtError where
  | code (n : Nat)
deriving DecidableEq

/-- Color type `smart_leds_trait::RGB8`: one 8-bit channel value per color channel. -/
structure RGB8 where
  r : Nat
  g : Nat
  b : Nat
deriving DecidableEq

/-- Error type `LedAdapterError` of the source. -/
inductive LedAdapterError where
  | BufferSizeExceeded
  | TransmissionError (e : RmtError)
deriving DecidableEq

/-- Constant `RMT_RAM_ONE_LED`: RMT RAM needed to drive one LED. -/
def RMT_RAM_ONE_LED : Nat := 3 * 8

/-- Constant `SK68XX_CODE_PERIOD` (ns). -/
def SK68XX_CODE_PERIOD : Nat := 1250

/-- Constant `SK68XX_T0H_NS`. -/
def SK68XX_T0H_NS : Nat := 400

/-- Constant `SK68XX_T0L_NS`. -/
def SK68XX_T0L_NS : Nat := SK68XX_CODE_PERIOD - SK68XX_T0H_NS

/-- Constant `SK68XX_T1H_NS`. -/
def SK68XX_T1H_NS : Nat := 850

/-- Constant `SK68XX_T1L_NS`. -/
def SK68XX_T1L_NS : Nat := SK68XX_CODE_PERIOD - SK68XX_T1H_NS

/-- Rust's truncating cast `as u16` on a non-negative integer. -/
def u16cast (x : Nat) : Nat := x % 65536

/-- Source function `led_pulses_for_clock`: the (zero-pulse, one-pulse) pair computed from the
source clock frequency in MHz.  The source builds two `PulseCode` words whose
tick counts are `(duration_ns * src_clock) / 1000` cast to `u16`. -/
def led_pulses_for_clock (src_clock : Nat) : PulseCode × PulseCode :=
  (PulseCode.new Level.high (u16cast (SK68XX_T0H_NS * src_clock / 1000))
     Level.low (u16cast (SK68XX_T0L_NS * src_clock / 1000)),
   PulseCode.new Level.high (u16cast (SK68XX_T1H_NS * src_clock / 1000))
     Level.low (u16cast (SK68XX_T1L_NS * src_clock / 1000)))

/-- Total period of a pulse word in clock ticks (spec: `bitPeriod`). -/
def bitPeriod (p : PulseCode) : Nat := p.length1 + p.length2

/-- The destination buffer iterator: the underlying `u32` buffer and the
index of the next free slot (`IterMut<u32>` positioned inside `rmt_buffer`). -/
structure BufWriter where
  buf : List Nat
  pos : Nat
deriving DecidableEq

/-- Result of a buffer-filling step: Rust's `Result<(), LedAdapterError>`
together with the state of the (in-place mutated) buffer at that point. -/
inductive WRes where
  | ok (w : BufWriter)
  | err (e : LedAdapterError) (w : BufWriter)
deriving DecidableEq

/-- Sequencing of buffer-filling steps; models Rust's `?` early return. -/
def bindW : WRes → (BufWriter → WRes) → WRes
  | .ok w, f => f w
  | .err e w, _ => .err e w

/-- Source step `*mut_iter.next().ok_or(BufferSizeExceeded)? = v`: write `v` into the
next free slot, or fail when the buffer is exhausted. -/
def writeNext (w : BufWriter) (v : Nat) : WRes :=
  if w.pos < w.buf.length then .ok ⟨w.buf.set w.pos v, w.pos + 1⟩
  else .err .BufferSizeExceeded w

/-- Success test on a `WRes`. -/
def WRes.isOk : WRes → Bool
  | .ok _ => true
  | .err _ _ => false

/-- Does a `WRes` carry the `BufferSizeExceeded` error? -/
def WRes.isBufExceeded : WRes → Bool
  | .err .BufferSizeExceeded _ => true
  | _ => false

/-- Source function `convert_rgb_channel_to_pulses`: for each mask in `[128, ..., 1]` (bit 7
down to bit 0) write the zero-pulse when the masked bit is clear and the
one-pulse when it is set. -/
def convert_rgb_channel_to_pulses (channel_value : Nat) (w : BufWriter)
    (pulses : Nat × Nat) : WRes :=
  List.foldl
    (fun r position =>
      bindW r fun w =>
        writeNext w (if channel_value &&& position = 0 then pulses.1 else pulses.2))
    (.ok w) [128, 64, 32, 16, 8, 4, 2, 1]

/-- Source function `convert_rgb_to_pulses`: green channel, then red, then blue. -/
def convert_rgb_to_pulses (value : RGB8) (w : BufWriter)
    (pulses : Nat × Nat) : WRes :=
  bindW (convert_rgb_channel_to_pulses value.g w pulses) fun w1 =>
    bindW (convert_rgb_channel_to_pulses value.r w1 pulses) fun w2 =>
      convert_rgb_channel_to_pulses value.b w2 pulses

/-- Source function `buffer_size`: required buffer length for the blocking API. -/
def buffer_size (num_leds : Nat) : Nat :=
  num_leds * RMT_RAM_ONE_LED + 1

/-- Source function `buffer_size_async`: required buffer length for the asynchronous API. -/
def buffer_size_async (num_leds : Nat) : Nat :=
  num_leds * (RMT_RAM_ONE_LED + 1)

/-- Blocking adapter state: the (optional, `take`-able) channel token, the
fixed RMT buffer and the pulse pair. -/
structure SmartLedsAdapter where
  channel : Option Nat
  rmt_buffer : List Nat
  pulses : Nat × Nat
deriving DecidableEq

/-- Outcome of the blocking peripheral interaction
`channel.transmit(&buf)?.wait()`, supplied as a parameter:
`startFail e` - `transmit` itself returns `Err(e)` (the channel is consumed
and not returned); `waitFail e` - `wait()` returns `Err((e, channel))`;
`done` - `wait()` returns `Ok(channel)`. -/
inductive TxOutcome where
  | startFail (e : RmtError)
  | waitFail (e : RmtError)
  | done
deriving DecidableEq

instance : DecidableEq (Except LedAdapterError Unit)
  | .ok (), .ok () => isTrue rfl
  | .error e, .error f =>
    if h : e = f then isTrue (h ▸ rfl)
    else isFalse fun hh => h (by injection hh)
  | .ok (), .error _ => isFalse fun hh => Except.noConfusion hh
  | .error _, .ok () => isFalse fun hh => Except.noConfusion hh

/-- Observable result of one blocking `write` call: returned value, the
`channel` field afterwards, the `rmt_buffer` field afterwards, and the data
slices passed to `transmit` (in call order). -/
structure SyncWriteOutput where
  result : Except LedAdapterError Unit
  channel : Option Nat
  rmt_buffer : List Nat
  transmits : List (List Nat)
deriving DecidableEq

/-- The encoding phase of the blocking `write`: convert every color of the
iterator into the buffer from its start, then append the end element `0`. -/
def sync_fill_buffer (buf : List Nat) (colors : List RGB8)
    (pulses : Nat × Nat) : WRes :=
  bindW
    (List.foldl (fun r item => bindW r fun w => convert_rgb_to_pulses item w pulses)
      (.ok ⟨buf, 0⟩) colors)
    fun w => writeNext w 0

/-- Blocking `SmartLedsAdapter::write`.  `none` models the panic of
`self.channel.take().unwrap()` when the channel is absent.  On an encoding
failure the call returns before the channel is taken and nothing is
transmitted; otherwise the whole buffer is passed to `transmit` once, and the
channel is stored back only on the two `wait()` paths. -/
def SmartLedsAdapter.write (a : SmartLedsAdapter) (colors : List RGB8)
    (outcome : TxOutcome) : Option SyncWriteOutput :=
  match sync_fill_buffer a.rmt_buffer colors a.pulses with
  | .err e w => some ⟨.error e, a.channel, w.buf, []⟩
  | .ok w =>
    match a.channel with
    | none => none
    | some ch =>
      match outcome with
      | .startFail e => some ⟨.error (.TransmissionError e), none, w.buf, [w.buf]⟩
      | .waitFail e => some ⟨.error (.TransmissionError e), some ch, w.buf, [w.buf]⟩
      | .done => some ⟨.ok (), some ch, w.buf, [w.buf]⟩

/-- Asynchronous adapter state. -/
structure SmartLedsAdapterAsync where
  channel : Nat
  rmt_buffer : List Nat
  pulses : Nat × Nat
deriving DecidableEq

/-- Source method `SmartLedsAdapterAsync::convert_rgb_to_pulse`: one color's 24 pulses
followed by its own end element `0`. -/
def convert_rgb_to_pulse (value : RGB8) (w : BufWriter)
    (pulses : Nat × Nat) : WRes :=
  bindW (convert_rgb_to_pulses value w pulses) fun w => writeNext w 0

/-- Source method `SmartLedsAdapterAsync::prepare_rmt_buffer`. -/
def prepare_rmt_buffer (a : SmartLedsAdapterAsync) (colors : List RGB8) : WRes :=
  List.foldl (fun r item => bindW r fun w => convert_rgb_to_pulse item w a.pulses)
    (.ok ⟨a.rmt_buffer, 0⟩) colors

/-- Structural worker for `chunksOf`; the fuel argument only bounds the
recursion depth and is irrelevant once it is at least the list length. -/
def chunksOfFuel (k : Nat) : Nat → List Nat → List (List Nat)
  | 0, _ => []
  | _ + 1, [] => []
  | fuel + 1, x :: xs => (x :: xs).take k :: chunksOfFuel k fuel ((x :: xs).drop k)

/-- Rust's `slice::chunks(k)` (for `k ≠ 0`): consecutive chunks of length
`k`, the last one possibly shorter.  (The source only calls it with
`k = RMT_RAM_ONE_LED + 1`.) -/
def chunksOf (k : Nat) (l : List Nat) : List (List Nat) :=
  chunksOfFuel k l.length l

/-- The chunk-transmission loop of the asynchronous `write`: transmit each
chunk in order, awaiting each before the next; `oracle i` is the outcome the
peripheral reports for the `i`-th transmit call (`none` = success).  Returns
the call result and the data of every transmit call actually issued. -/
def asyncTransmitLoop (oracle : Nat → Option RmtError) :
    Nat → List (List Nat) → Except LedAdapterError Unit × List (List Nat)
  | _, [] => (.ok (), [])
  | i, chunk :: rest =>
    match oracle i with
    | some e => (.error (.TransmissionError e), [chunk])
    | none =>
      let r := asyncTransmitLoop oracle (i + 1) rest
      (r.1, chunk :: r.2)

/-- Observable result of one asynchronous `write` call. -/
structure AsyncWriteOutput where
  result : Except LedAdapterError Unit
  rmt_buffer : List Nat
  transmits : List (List Nat)
deriving DecidableEq

/-- Asynchronous `SmartLedsAdapterAsync::write`: prepare the buffer, then
transmit `self.rmt_buffer.chunks(RMT_RAM_ONE_LED + 1)` one after another. -/
def SmartLedsAdapterAsync.write (a : SmartLedsAdapterAsync)
    (colors : List RGB8) (oracle : Nat → Option RmtError) : AsyncWriteOutput :=
  match prepare_rmt_buffer a colors with
  | .err e w => ⟨.error e, w.buf, []⟩
  | .ok w =>
    let r := asyncTransmitLoop oracle 0 (chunksOf (RMT_RAM_ONE_LED + 1) w.buf)
    ⟨r.1, w.buf, r.2⟩

/-- Spec-side description of the `i`-th of the 24 words encoding one color
(`0 ≤ i < 24`): channel order green, red, blue; within a channel the bits go
most-significant first; a set bit selects the one-pulse, a clear bit the
zero-pulse. -/
def expectedWord (c : RGB8) (p : Nat × Nat) (i : Nat) : Nat :=
  if (if i < 8 then c.g else if i < 16 then c.r else c.b).testBit (7 - i % 8)
  then p.2 else p.1

/-- The 8 words the codec writes for one channel value. -/
def channelPulseList (v : Nat) (p : Nat × Nat) : List Nat :=
  [128, 64, 32, 16, 8, 4, 2, 1].map
    (fun position => if v &&& position = 0 then p.1 else p.2)

/-- The 24 words the codec writes for one color. -/
def rgbPulseList (c : RGB8) (p : Nat × Nat) : List Nat :=
  channelPulseList c.g p ++ channelPulseList c.r p ++ channelPulseList c.b p

/-- Write a whole list of words into consecutive slots, stopping (with the
partially written state) at the first exhausted slot. -/
def writeAllW (w : BufWriter) : List Nat → WRes
  | [] => .ok w
  | v :: vs =>
    match writeNext w v with
    | .ok w' => writeAllW w' vs
    | .err e w' => .err e w'

theorem bindW_err (e : LedAdapterError) (w : BufWriter) (f : BufWriter → WRes) :
    bindW (.err e w) f = .err e w := rfl

theorem bindW_ok (w : BufWriter) (f : BufWriter → WRes) :
    bindW (.ok w) f = f w := rfl

theorem bindW_assoc (r : WRes) (f g : BufWriter → WRes) :
    bindW (bindW r f) g = bindW r fun w => bindW (f w) g := by
  cases r <;> rfl

theorem foldl_bindW_err {α : Type} (g : α → BufWriter → WRes) (l : List α)
    (e : LedAdapterError) (w : BufWriter) :
    List.foldl (fun r x => bindW r (g x)) (.err e w) l = .err e w := by
  induction l with
  | nil => rfl
  | cons x l ih => simpa [bindW_err] using ih

theorem writeAllW_append (a b : List Nat) (w : BufWriter) :
    writeAllW w (a ++ b) = bindW (writeAllW w a) fun w' => writeAllW w' b := by
  induction a generalizing w with
  | nil => rfl
  | cons v a ih =>
    simp only [List.cons_append, writeAllW]
    cases writeNext w v with
    | ok w' => exact ih w'
    | err e w' => rfl

theorem writeAllW_singleton (w : BufWriter) (v : Nat) :
    writeAllW w [v] = writeNext w v := by
  simp only [writeAllW]
  cases writeNext w v <;> rfl

theorem foldl_bindW_writeNext {α : Type} (f : α → Nat) (l : List α) (w : BufWriter) :
    List.foldl (fun r x => bindW r fun w => writeNext w (f x)) (.ok w) l
      = writeAllW w (l.map f) := by
  induction l generalizing w with
  | nil => rfl
  | cons x l ih =>
    simp only [List.foldl, List.map, writeAllW, bindW_ok]
    cases hw : writeNext w (f x) with
    | ok w' => exact ih w'
    | err e w' => exact foldl_bindW_err _ l e w'

theorem convert_rgb_channel_eq (v : Nat) (w : BufWriter) (p : Nat × Nat) :
    convert_rgb_channel_to_pulses v w p = writeAllW w (channelPulseList v p) := by
  unfold convert_rgb_channel_to_pulses channelPulseList
  exact foldl_bindW_writeNext _ _ w

theorem convert_rgb_to_pulses_eq (c : RGB8) (w : BufWriter) (p : Nat × Nat) :
    convert_rgb_to_pulses c w p = writeAllW w (rgbPulseList c p) := by
  simp only [convert_rgb_to_pulses, rgbPulseList, writeAllW_append,
    convert_rgb_channel_eq, bindW_assoc]

theorem convert_rgb_to_pulse_eq (c : RGB8) (w : BufWriter) (p : Nat × Nat) :
    convert_rgb_to_pulse c w p = writeAllW w (rgbPulseList c p ++ [0]) := by
  simp only [convert_rgb_to_pulse, convert_rgb_to_pulses_eq, writeAllW_append,
    writeAllW_singleton]

theorem foldl_bindW_conv {α : Type} (cv : α → BufWriter → WRes)
    (g : α → List Nat) (hcv : ∀ c w, cv c w = writeAllW w (g c))
    (l : List α) (w : BufWriter) :
    List.foldl (fun r c => bindW r fun w => cv c w) (.ok w) l
      = writeAllW w (l.map g).flatten := by
  induction l generalizing w with
  | nil => rfl
  | cons c l ih =>
    rw [List.foldl_cons, List.map_cons, List.flatten_cons, writeAllW_append]
    show List.foldl _ (bindW (.ok w) fun w => cv c w) l = _
    rw [bindW_ok, hcv c w]
    cases hw : writeAllW w (g c) with
    | ok w' => rw [bindW_ok]; exact ih w'
    | err e w' => rw [bindW_err]; exact foldl_bindW_err _ l e w'

theorem sync_fill_buffer_eq (buf : List Nat) (colors : List RGB8) (p : Nat × Nat) :
    sync_fill_buffer buf colors p
      = writeAllW ⟨buf, 0⟩ ((colors.map (fun c => rgbPulseList c p)).flatten ++ [0]) := by
  rw [sync_fill_buffer, writeAllW_append,
    foldl_bindW_conv (fun c w => convert_rgb_to_pulses c w p)
      (fun c => rgbPulseList c p) (fun c w => convert_rgb_to_pulses_eq c w p)]
  cases writeAllW ⟨buf, 0⟩ (colors.map fun c => rgbPulseList c p).flatten with
  | ok w' => rw [bindW_ok, bindW_ok, writeAllW_singleton]
  | err e w' => rw [bindW_err, bindW_err]

theorem prepare_rmt_buffer_eq (a : SmartLedsAdapterAsync) (colors : List RGB8) :
    prepare_rmt_buffer a colors
      = writeAllW ⟨a.rmt_buffer, 0⟩
          ((colors.map (fun c => rgbPulseList c a.pulses ++ [0])).flatten) := by
  rw [prepare_rmt_buffer]
  exact foldl_bindW_conv (fun c w => convert_rgb_to_pulse c w a.pulses)
    (fun c => rgbPulseList c a.pulses ++ [0])
    (fun c w => convert_rgb_to_pulse_eq c w a.pulses) colors ⟨a.rmt_buffer, 0⟩

theorem writeNext_lt (buf : List Nat) (pos : Nat) (v : Nat) (h : pos < buf.length) :
    writeNext ⟨buf, pos⟩ v = .ok ⟨buf.set pos v, pos + 1⟩ := by
  simp [writeNext, h]

theorem writeNext_ge (buf : List Nat) (pos : Nat) (v : Nat) (h : ¬ pos < buf.length) :
    writeNext ⟨buf, pos⟩ v = .err .BufferSizeExceeded ⟨buf, pos⟩ := by
  simp [writeNext, h]

theorem writeAllW_spec (vs : List Nat) (buf : List Nat) (pos : Nat)
    (h : pos + vs.length ≤ buf.length) :
    ∃ buf', writeAllW ⟨buf, pos⟩ vs = .ok ⟨buf', pos + vs.length⟩ ∧
      buf'.length = buf.length ∧
      (∀ i : Nat, i < vs.length → buf'[pos + i]? = vs[i]?) ∧
      (∀ j : Nat, j < pos ∨ pos + vs.length ≤ j → buf'[j]? = buf[j]?) := by
  induction vs generalizing buf pos with
  | nil =>
    exact ⟨buf, by simp [writeAllW], rfl, by simp, fun j hj => rfl⟩
  | cons v vs ih =>
    rw [List.length_cons] at h
    have hlt : pos < buf.length := by omega
    have h' : (pos + 1) + vs.length ≤ (buf.set pos v).length := by
      rw [List.length_set]; omega
    obtain ⟨buf', heq, hlen, hin, hout⟩ := ih (buf.set pos v) (pos + 1) h'
    rw [List.length_set] at hlen
    refine ⟨buf', ?_, hlen, ?_, ?_⟩
    · show writeAllW ⟨buf, pos⟩ (v :: vs) = _
      rw [writeAllW, writeNext_lt buf pos v hlt]
      show writeAllW ⟨buf.set pos v, pos + 1⟩ vs = _
      rw [heq]
      have : pos + 1 + vs.length = pos + (v :: vs).length := by
        rw [List.length_cons]; omega
      rw [this]
    · intro i hi
      rw [List.length_cons] at hi
      match i with
      | 0 =>
        have h0 : buf'[pos]? = (buf.set pos v)[pos]? :=
          hout pos (Or.inl (by omega))
        have h1 : (buf.set pos v)[pos]? = some v := by
          simp [List.getElem?_set_self, hlt]
        simpa using h0.trans h1
      | i + 1 =>
        have : pos + (i + 1) = (pos + 1) + i := by omega
        rw [this, hin i (by omega)]
        simp
    · intro j hj
      rw [List.length_cons] at hj
      have hj' : j < pos + 1 ∨ (pos + 1) + vs.length ≤ j := by omega
      have hne : pos ≠ j := by omega
      rw [hout j hj']
      exact List.getElem?_set_ne hne

theorem writeAllW_fail (vs : List Nat) (buf : List Nat) (pos : Nat)
    (hp : pos ≤ buf.length) (h : buf.length < pos + vs.length) :
    ∃ w', writeAllW ⟨buf, pos⟩ vs = .err .BufferSizeExceeded w' := by
  induction vs generalizing buf pos with
  | nil => simp only [List.length_nil] at h; omega
  | cons v vs ih =>
    rw [List.length_cons] at h
    by_cases hlt : pos < buf.length
    · have hp' : pos + 1 ≤ (buf.set pos v).length := by
        rw [List.length_set]; omega
      have h' : (buf.set pos v).length < (pos + 1) + vs.length := by
        rw [List.length_set]; omega
      obtain ⟨w', hw'⟩ := ih (buf.set pos v) (pos + 1) hp' h'
      refine ⟨w', ?_⟩
      rw [writeAllW, writeNext_lt buf pos v hlt]
      show writeAllW ⟨buf.set pos v, pos + 1⟩ vs = _
      rw [hw']
    · refine ⟨⟨buf, pos⟩, ?_⟩
      rw [writeAllW, writeNext_ge buf pos v hlt]

theorem maskBit (v k a b : Nat) :
    (if v &&& 2 ^ k = 0 then a else b) = if v.testBit k then b else a := by
  rcases h : v.testBit k with _ | _ <;>
    simp [Nat.and_two_pow, h, Nat.pos_iff_ne_zero.mp (Nat.two_pow_pos k)]

theorem channelPulseList_getElem (v : Nat) (p : Nat × Nat) (j : Nat) (h : j < 8) :
    (channelPulseList v p)[j]? = some (if v.testBit (7 - j) then p.2 else p.1) := by
  have m128 := maskBit v 7 p.1 p.2
  have m64 := maskBit v 6 p.1 p.2
  have m32 := maskBit v 5 p.1 p.2
  have m16 := maskBit v 4 p.1 p.2
  have m8 := maskBit v 3 p.1 p.2
  have m4 := maskBit v 2 p.1 p.2
  have m2 := maskBit v 1 p.1 p.2
  have m1 := maskBit v 0 p.1 p.2
  norm_num at m128 m64 m32 m16 m8 m4 m2 m1
  interval_cases j <;>
    simp only [channelPulseList, List.map, List.getElem?_cons_zero,
      List.getElem?_cons_succ] <;>
    norm_num [m128, m64, m32, m16, m8, m4, m2, m1]

theorem channelPulseList_length (v : Nat) (p : Nat × Nat) :
    (channelPulseList v p).length = 8 := rfl

theorem rgbPulseList_length (c : RGB8) (p : Nat × Nat) :
    (rgbPulseList c p).length = 24 := rfl

theorem rgbPulseList_getElem (c : RGB8) (p : Nat × Nat) (i : Nat) (h : i < 24) :
    (rgbPulseList c p)[i]? = some (expectedWord c p i) := by
  unfold rgbPulseList expectedWord
  have hgr : (channelPulseList c.g p ++ channelPulseList c.r p).length = 16 := by
    rw [List.length_append, channelPulseList_length, channelPulseList_length]
  by_cases h8 : i < 8
  · rw [List.getElem?_append_left (by rw [hgr]; omega),
      List.getElem?_append_left (by rw [channelPulseList_length]; omega),
      channelPulseList_getElem c.g p i h8]
    have hm : i % 8 = i := Nat.mod_eq_of_lt h8
    rw [hm]
    simp [h8]
  · by_cases h16 : i < 16
    · rw [List.getElem?_append_left (by rw [hgr]; omega),
        List.getElem?_append_right (by rw [channelPulseList_length]; omega),
        channelPulseList_length,
        channelPulseList_getElem c.r p (i - 8) (by omega)]
      have hm : i % 8 = i - 8 := by omega
      rw [hm]
      simp [h8, h16]
    · rw [List.getElem?_append_right (by rw [hgr]; omega), hgr,
        channelPulseList_getElem c.b p (i - 16) (by omega)]
      have hm : i % 8 = i - 16 := by omega
      rw [hm]
      simp [h8, h16]

theorem asyncPulseList_length (colors : List RGB8) (p : Nat × Nat) :
    ((colors.map fun c => rgbPulseList c p ++ [0]).flatten).length
      = 25 * colors.length := by
  induction colors with
  | nil => simp
  | cons c colors ih =>
    simp only [List.map_cons, List.flatten_cons, List.length_append, ih,
      List.length_append, rgbPulseList_length, List.length_cons,
      List.length_nil, List.length_cons]
    omega

theorem syncPulseList_length (colors : List RGB8) (p : Nat × Nat) :
    ((colors.map fun c => rgbPulseList c p).flatten).length
      = 24 * colors.length := by
  induction colors with
  | nil => simp
  | cons c colors ih =>
    simp only [List.map_cons, List.flatten_cons, List.length_append, ih,
      rgbPulseList_length, List.length_cons]
    omega

theorem chunksOfFuel_congr (k : Nat) (hk : k ≠ 0) :
    ∀ (fuel fuel' : Nat) (l : List Nat), l.length ≤ fuel → l.length ≤ fuel' →
      chunksOfFuel k fuel l = chunksOfFuel k fuel' l
  | 0, 0, _, _, _ => rfl
  | 0, _ + 1, l, h, _ => by
    have hl : l = [] := List.eq_nil_of_length_eq_zero (by omega)
    subst hl; rfl
  | _ + 1, 0, l, _, h' => by
    have hl : l = [] := List.eq_nil_of_length_eq_zero (by omega)
    subst hl; rfl
  | _ + 1, _ + 1, [], _, _ => rfl
  | fuel + 1, fuel' + 1, x :: xs, h, h' => by
    show (x :: xs).take k :: chunksOfFuel k fuel ((x :: xs).drop k)
        = (x :: xs).take k :: chunksOfFuel k fuel' ((x :: xs).drop k)
    congr 1
    apply chunksOfFuel_congr k hk fuel fuel'
    · rw [List.length_drop, List.length_cons]
      rw [List.length_cons] at h
      omega
    · rw [List.length_drop, List.length_cons]
      rw [List.length_cons] at h'
      omega

theorem chunksOf_nil (k : Nat) : chunksOf k [] = [] := rfl

theorem chunksOf_cons (k : Nat) (a rest : List Nat) (hk : k ≠ 0)
    (ha : a.length = k) :
    chunksOf k (a ++ rest) = a :: chunksOf k rest := by
  obtain ⟨x, a', rfl⟩ : ∃ x a', a = x :: a' := by
    cases a with
    | nil => rw [List.length_nil] at ha; omega
    | cons x a' => exact ⟨x, a', rfl⟩
  have ht : (x :: (a' ++ rest)).take k = x :: a' := by
    rw [← List.cons_append, List.take_left' ha]
  have hd : (x :: (a' ++ rest)).drop k = rest := by
    rw [← List.cons_append, List.drop_left' ha]
  rw [chunksOf, List.cons_append, List.length_cons]
  show (x :: (a' ++ rest)).take k
      :: chunksOfFuel k (a' ++ rest).length ((x :: (a' ++ rest)).drop k)
      = (x :: a') :: chunksOf k rest
  rw [ht, hd, chunksOf]
  congr 1
  apply chunksOfFuel_congr k hk
  · rw [List.length_append]; omega
  · omega

theorem chunksOf_flatten (k : Nat) (hk : k ≠ 0) (L : List (List Nat))
    (hL : ∀ a ∈ L, a.length = k) :
    chunksOf k L.flatten = L := by
  induction L with
  | nil => simpa using chunksOf_nil k
  | cons a L ih =>
    rw [List.flatten_cons, chunksOf_cons k a L.flatten hk (hL a (by simp))]
    rw [ih (fun b hb => hL b (by simp [hb]))]

theorem asyncTransmitLoop_none (chunks : List (List Nat)) (i : Nat) :
    asyncTransmitLoop (fun _ => none) i chunks = (.ok (), chunks) := by
  induction chunks generalizing i with
  | nil => rfl
  | cons chunk rest ih => simp [asyncTransmitLoop, ih]

/-- C1: for every color `c` and destination iterator with at least 24 free
slots, encoding `c` succeeds, advances by exactly 24 slots, and the words
written into the next 24 slots are, in order, green bit7..bit0, red
bit7..bit0, blue bit7..bit0, each the one-pulse if the bit is set and the
zero-pulse if it is clear; all other slots are unchanged. -/
theorem c1_encode_color_24_words (c : RGB8) (w : BufWriter) (p : Nat × Nat)
    (h : w.pos + 24 ≤ w.buf.length) :
    ∃ buf', convert_rgb_to_pulses c w p = .ok ⟨buf', w.pos + 24⟩ ∧
      buf'.length = w.buf.length ∧
      (∀ i : Nat, i < 24 → buf'[w.pos + i]? = some (expectedWord c p i)) ∧
      (∀ j : Nat, j < w.pos ∨ w.pos + 24 ≤ j → buf'[j]? = w.buf[j]?) := by
  obtain ⟨buf', heq, hlen, hin, hout⟩ :=
    writeAllW_spec (rgbPulseList c p) w.buf w.pos
      (by rw [rgbPulseList_length]; exact h)
  rw [rgbPulseList_length] at heq hin hout
  refine ⟨buf', ?_, hlen, ?_, hout⟩
  · rw [convert_rgb_to_pulses_eq]
    exact heq
  · intro i hi
    exact (hin i hi).trans (rgbPulseList_getElem c p i hi)

theorem c1_encode_color_24_words_witness :
    (0 : Nat) + 24 ≤ (List.replicate 24 7 : List Nat).length ∧
    (∃ buf', convert_rgb_to_pulses ⟨255, 0, 0⟩ ⟨List.replicate 24 7, 0⟩ (1, 2)
        = .ok ⟨buf', 0 + 24⟩ ∧
      buf'.length = (List.replicate 24 7 : List Nat).length ∧
      (∀ i : Nat, i < 24 → buf'[0 + i]? = some (expectedWord ⟨255, 0, 0⟩ (1, 2) i)) ∧
      (∀ j : Nat, j < 0 ∨ 0 + 24 ≤ j →
        buf'[j]? = (List.replicate 24 7 : List Nat)[j]?)) :=
  ⟨by decide,
   c1_encode_color_24_words ⟨255, 0, 0⟩ ⟨List.replicate 24 7, 0⟩ (1, 2) (by decide)⟩

/-- C2: the synchronous buffer-sizing function returns `24 * n + 1` and the
asynchronous one returns `25 * n`, for every `n`. -/
theorem c2_buffer_sizes (n : Nat) :
    buffer_size n = 24 * n + 1 ∧ buffer_size_async n = 25 * n := by
  unfold buffer_size buffer_size_async RMT_RAM_ONE_LED
  omega

/-- C5 counterexample: at `src_clock = 1` MHz both pulse periods are `0`
ticks, while `protocolPeriodNs * f / 1000 = 1250 / 1000 = 1`, so the common
period does not equal `SK68XX_CODE_PERIOD * f / 1000`. -/
theorem c5_period_counterexample :
    bitPeriod (led_pulses_for_clock 1).1 = 0 ∧
    bitPeriod (led_pulses_for_clock 1).2 = 0 ∧
    SK68XX_CODE_PERIOD * 1 / 1000 = 1 ∧
    bitPeriod (led_pulses_for_clock 1).1 ≠ SK68XX_CODE_PERIOD * 1 / 1000 := by
  decide

/-- C5 amended: the zero-pulse and one-pulse always have equal total periods;
the common period equals `SK68XX_CODE_PERIOD * f / 1000` when `f` is a
multiple of 20 (so both per-duration truncated divisions are exact) and the
tick counts do not overflow the 16-bit cast. -/
theorem c5_equal_periods (f : Nat) :
    bitPeriod (led_pulses_for_clock f).1 = bitPeriod (led_pulses_for_clock f).2 ∧
    (f % 20 = 0 → SK68XX_T1H_NS * f / 1000 < 65536 →
      bitPeriod (led_pulses_for_clock f).1 = SK68XX_CODE_PERIOD * f / 1000) := by
  have hz : bitPeriod (led_pulses_for_clock f).1
      = 400 * f / 1000 % 65536 + 850 * f / 1000 % 65536 := rfl
  have ho : bitPeriod (led_pulses_for_clock f).2
      = 850 * f / 1000 % 65536 + 400 * f / 1000 % 65536 := rfl
  have hc : SK68XX_CODE_PERIOD * f / 1000 = 1250 * f / 1000 := rfl
  have ht : SK68XX_T1H_NS * f / 1000 = 850 * f / 1000 := rfl
  rw [hz, ho, hc, ht]
  refine ⟨by omega, fun h20 hlt => ?_⟩
  obtain ⟨k, rfl⟩ : ∃ k, f = 20 * k := ⟨f / 20, by omega⟩
  have h1 : 400 * (20 * k) / 1000 = 8 * k := by omega
  have h2 : 850 * (20 * k) / 1000 = 17 * k := by omega
  have h3 : 1250 * (20 * k) / 1000 = 25 * k := by omega
  rw [h1, h2, h3]
  rw [h2] at hlt
  rw [Nat.mod_eq_of_lt (show 8 * k < 65536 by omega), Nat.mod_eq_of_lt hlt]
  omega

theorem c5_equal_periods_witness :
    (80 : Nat) % 20 = 0 ∧ SK68XX_T1H_NS * 80 / 1000 < 65536 ∧
    bitPeriod (led_pulses_for_clock 80).1 = SK68XX_CODE_PERIOD * 80 / 1000 :=
  ⟨by decide, by decide, (c5_equal_periods 80).2 (by decide) (by decide)⟩

/-- C10: each stored tick count is `(duration_ns * f) / 1000` reduced modulo
`2 ^ 16 = 65536` (Rust's `as u16`), so when the exact quotient reaches 65536
the stored count has wrapped around: it is strictly smaller than the exact
quotient and differs from it by the discarded multiple of 65536. -/
theorem c10_tick_counts_wrap (f : Nat) :
    (led_pulses_for_clock f).1.length1 = SK68XX_T0H_NS * f / 1000 % 65536 ∧
    (led_pulses_for_clock f).1.length2 = SK68XX_T0L_NS * f / 1000 % 65536 ∧
    (led_pulses_for_clock f).2.length1 = SK68XX_T1H_NS * f / 1000 % 65536 ∧
    (led_pulses_for_clock f).2.length2 = SK68XX_T1L_NS * f / 1000 % 65536 ∧
    (65536 ≤ SK68XX_T0H_NS * f / 1000 →
      (led_pulses_for_clock f).1.length1 < SK68XX_T0H_NS * f / 1000 ∧
      (led_pulses_for_clock f).1.length1
          + 65536 * (SK68XX_T0H_NS * f / 1000 / 65536)
        = SK68XX_T0H_NS * f / 1000) := by
  have l1 : (led_pulses_for_clock f).1.length1 = 400 * f / 1000 % 65536 := rfl
  have ha : SK68XX_T0H_NS * f / 1000 = 400 * f / 1000 := rfl
  refine ⟨rfl, rfl, rfl, rfl, fun hge => ?_⟩
  rw [l1, ha]
  rw [ha] at hge
  omega

theorem c10_tick_counts_wrap_witness :
    65536 ≤ SK68XX_T0H_NS * 200000 / 1000 ∧
    ((led_pulses_for_clock 200000).1.length1 < SK68XX_T0H_NS * 200000 / 1000 ∧
      (led_pulses_for_clock 200000).1.length1
          + 65536 * (SK68XX_T0H_NS * 200000 / 1000 / 65536)
        = SK68XX_T0H_NS * 200000 / 1000) :=
  ⟨by decide, (c10_tick_counts_wrap 200000).2.2.2.2 (by decide)⟩

/-- C6: encoding `n` colors plus the required terminator(s) into a buffer of
exactly `buffer_size n = 24n + 1` words (sync) or `buffer_size_async n = 25n`
words (async) succeeds, while a buffer one word smaller fails with
`BufferSizeExceeded`.  (For the async case a one-word-smaller buffer only
exists when `0 < n`.) -/
theorem c6_exact_capacity (colors : List RGB8) (p : Nat × Nat)
    (buf1 buf2 buf3 buf4 : List Nat) (ch : Nat)
    (h1 : buf1.length = buffer_size colors.length)
    (h2 : buf2.length = buffer_size colors.length - 1)
    (h3 : buf3.length = buffer_size_async colors.length)
    (h4 : buf4.length = buffer_size_async colors.length - 1) :
    (sync_fill_buffer buf1 colors p).isOk = true ∧
    (sync_fill_buffer buf2 colors p).isBufExceeded = true ∧
    (prepare_rmt_buffer ⟨ch, buf3, p⟩ colors).isOk = true ∧
    (0 < colors.length →
      (prepare_rmt_buffer ⟨ch, buf4, p⟩ colors).isBufExceeded = true) := by
  unfold buffer_size RMT_RAM_ONE_LED at h1 h2
  unfold buffer_size_async RMT_RAM_ONE_LED at h3 h4
  have hsl : ((colors.map fun c => rgbPulseList c p).flatten ++ [0]).length
      = 24 * colors.length + 1 := by
    rw [List.length_append, syncPulseList_length, List.length_cons, List.length_nil]
  have hal : ((colors.map fun c => rgbPulseList c p ++ [0]).flatten).length
      = 25 * colors.length := asyncPulseList_length colors p
  refine ⟨?_, ?_, ?_, ?_⟩
  · obtain ⟨buf', heq, -⟩ :=
      writeAllW_spec ((colors.map fun c => rgbPulseList c p).flatten ++ [0]) buf1 0
        (by rw [hsl]; omega)
    rw [sync_fill_buffer_eq, heq]
    rfl
  · obtain ⟨w', hw⟩ :=
      writeAllW_fail ((colors.map fun c => rgbPulseList c p).flatten ++ [0]) buf2 0
        (by omega) (by rw [hsl]; omega)
    rw [sync_fill_buffer_eq, hw]
    rfl
  · obtain ⟨buf', heq, -⟩ :=
      writeAllW_spec ((colors.map fun c => rgbPulseList c p ++ [0]).flatten) buf3 0
        (by rw [hal]; omega)
    rw [prepare_rmt_buffer_eq, heq]
    rfl
  · intro hn
    obtain ⟨w', hw⟩ :=
      writeAllW_fail ((colors.map fun c => rgbPulseList c p ++ [0]).flatten) buf4 0
        (by omega) (by rw [hal]; omega)
    rw [prepare_rmt_buffer_eq, hw]
    rfl

theorem c6_exact_capacity_witness :
    (List.replicate 25 0 : List Nat).length = buffer_size 1 ∧
    (List.replicate 24 0 : List Nat).length = buffer_size 1 - 1 ∧
    (List.replicate 25 0 : List Nat).length = buffer_size_async 1 ∧
    (List.replicate 24 0 : List Nat).length = buffer_size_async 1 - 1 ∧
    ((sync_fill_buffer (List.replicate 25 0) [⟨1, 2, 3⟩] (5, 6)).isOk = true ∧
     (sync_fill_buffer (List.replicate 24 0) [⟨1, 2, 3⟩] (5, 6)).isBufExceeded = true ∧
     (prepare_rmt_buffer ⟨0, List.replicate 25 0, (5, 6)⟩ [⟨1, 2, 3⟩]).isOk = true ∧
     (0 < ([⟨1, 2, 3⟩] : List RGB8).length →
       (prepare_rmt_buffer ⟨0, List.replicate 24 0, (5, 6)⟩ [⟨1, 2, 3⟩]).isBufExceeded
         = true)) :=
  ⟨by decide, by decide, by decide, by decide,
   c6_exact_capacity [⟨1, 2, 3⟩] (5, 6) (List.replicate 25 0) (List.replicate 24 0)
     (List.replicate 25 0) (List.replicate 24 0) 0
     (by decide) (by decide) (by decide) (by decide)⟩

/-- C7 counterexample: on an adapter whose buffer holds 2 words, a
synchronous write of the empty color sequence transmits the whole 2-word
buffer, so the single transmit call does not cover exactly one word. -/
theorem c7_single_word_counterexample :
    SmartLedsAdapter.write ⟨some 0, [5, 7], (1, 2)⟩ [] .done
      = some ⟨.ok (), some 0, [0, 7], [[0, 7]]⟩ ∧
    ([0, 7] : List Nat).length ≠ 1 := by
  constructor
  · rfl
  · decide

/-- C7 amended: a synchronous write over an empty color sequence writes
exactly one word - the terminator, at buffer position 0, leaving every other
slot unchanged - and makes exactly one transmit call; that call passes the
entire buffer (hence exactly the single written word only when the buffer
capacity is exactly 1). -/
theorem c7_empty_write (a : SmartLedsAdapter) (ch : Nat)
    (hch : a.channel = some ch) (hlen : 1 ≤ a.rmt_buffer.length) :
    SmartLedsAdapter.write a [] .done
      = some ⟨.ok (), some ch, a.rmt_buffer.set 0 0, [a.rmt_buffer.set 0 0]⟩ ∧
    (a.rmt_buffer.set 0 0)[0]? = some 0 ∧
    (∀ j : Nat, 0 < j → (a.rmt_buffer.set 0 0)[j]? = a.rmt_buffer[j]?) := by
  have h0 : 0 < a.rmt_buffer.length := hlen
  have hfill : sync_fill_buffer a.rmt_buffer [] a.pulses
      = .ok ⟨a.rmt_buffer.set 0 0, 1⟩ := by
    show bindW (.ok ⟨a.rmt_buffer, 0⟩) (fun w => writeNext w 0) = _
    rw [bindW_ok]
    exact writeNext_lt a.rmt_buffer 0 0 h0
  refine ⟨?_, ?_, ?_⟩
  · simp only [SmartLedsAdapter.write, hfill, hch]
  · simp [List.getElem?_set_self, h0]
  · intro j hj
    exact List.getElem?_set_ne (by omega)

theorem c7_empty_write_witness :
    (⟨some 3, [9, 9], (1, 2)⟩ : SmartLedsAdapter).channel = some 3 ∧
    1 ≤ (⟨some 3, [9, 9], (1, 2)⟩ : SmartLedsAdapter).rmt_buffer.length ∧
    (SmartLedsAdapter.write ⟨some 3, [9, 9], (1, 2)⟩ [] .done
        = some ⟨.ok (), some 3, ([9, 9] : List Nat).set 0 0,
            [([9, 9] : List Nat).set 0 0]⟩ ∧
      (([9, 9] : List Nat).set 0 0)[0]? = some 0 ∧
      (∀ j : Nat, 0 < j →
        (([9, 9] : List Nat).set 0 0)[j]? = ([9, 9] : List Nat)[j]?)) :=
  ⟨rfl, by decide, c7_empty_write ⟨some 3, [9, 9], (1, 2)⟩ 3 rfl (by decide)⟩

/-- C8: when the encoding phase fails, both the synchronous and the
asynchronous `write` return that error and issue no transmit call at all. -/
theorem c8_no_transmit_on_encode_failure
    (a : SmartLedsAdapter) (colors : List RGB8) (outcome : TxOutcome)
    (aa : SmartLedsAdapterAsync) (colors2 : List RGB8)
    (oracle : Nat → Option RmtError)
    (e e2 : LedAdapterError) (w w2 : BufWriter)
    (hs : sync_fill_buffer a.rmt_buffer colors a.pulses = .err e w)
    (ha : prepare_rmt_buffer aa colors2 = .err e2 w2) :
    SmartLedsAdapter.write a colors outcome = some ⟨.error e, a.channel, w.buf, []⟩ ∧
    SmartLedsAdapterAsync.write aa colors2 oracle = ⟨.error e2, w2.buf, []⟩ := by
  constructor
  · simp only [SmartLedsAdapter.write, hs]
  · simp only [SmartLedsAdapterAsync.write, ha]

theorem c8_no_transmit_on_encode_failure_witness :
    sync_fill_buffer ([] : List Nat) [] (1, 2)
      = .err .BufferSizeExceeded ⟨[], 0⟩ ∧
    prepare_rmt_buffer ⟨0, [], (1, 2)⟩ [⟨0, 0, 0⟩]
      = .err .BufferSizeExceeded ⟨[], 0⟩ ∧
    (SmartLedsAdapter.write ⟨some 0, [], (1, 2)⟩ [] .done
        = some ⟨.error .BufferSizeExceeded, some 0, [], []⟩ ∧
      SmartLedsAdapterAsync.write ⟨0, [], (1, 2)⟩ [⟨0, 0, 0⟩] (fun _ => none)
        = ⟨.error .BufferSizeExceeded, [], []⟩) :=
  ⟨by decide, by decide,
   c8_no_transmit_on_encode_failure ⟨some 0, [], (1, 2)⟩ [] .done
     ⟨0, [], (1, 2)⟩ [⟨0, 0, 0⟩] (fun _ => none)
     .BufferSizeExceeded .BufferSizeExceeded ⟨[], 0⟩ ⟨[], 0⟩
     (by decide) (by decide)⟩

/-- C9: a successful synchronous write of `n` colors into a buffer whose
capacity exceeds `24n + 1` modifies only slots `0 .. 24n`; every slot above
`24n` keeps its previous value, and the single transmit call nevertheless
passes the entire buffer. -/
theorem c9_trailing_slots_unchanged (a : SmartLedsAdapter) (colors : List RGB8)
    (ch : Nat) (hch : a.channel = some ch)
    (hlen : 24 * colors.length + 1 < a.rmt_buffer.length) :
    ∃ buf', SmartLedsAdapter.write a colors .done
        = some ⟨.ok (), some ch, buf', [buf']⟩ ∧
      buf'.length = a.rmt_buffer.length ∧
      (∀ j : Nat, 24 * colors.length < j → buf'[j]? = a.rmt_buffer[j]?) := by
  have hsl : ((colors.map fun c => rgbPulseList c a.pulses).flatten ++ [0]).length
      = 24 * colors.length + 1 := by
    rw [List.length_append, syncPulseList_length, List.length_cons, List.length_nil]
  obtain ⟨buf', heq, hlen', hin, hout⟩ :=
    writeAllW_spec ((colors.map fun c => rgbPulseList c a.pulses).flatten ++ [0])
      a.rmt_buffer 0 (by rw [hsl]; omega)
  refine ⟨buf', ?_, hlen', ?_⟩
  · simp only [SmartLedsAdapter.write, sync_fill_buffer_eq, heq, hch]
  · intro j hj
    exact hout j (Or.inr (by rw [hsl]; omega))

theorem c9_trailing_slots_unchanged_witness :
    (⟨some 1, List.replicate 26 4, (1, 2)⟩ : SmartLedsAdapter).channel = some 1 ∧
    24 * ([⟨1, 2, 3⟩] : List RGB8).length + 1
      < (⟨some 1, List.replicate 26 4, (1, 2)⟩ : SmartLedsAdapter).rmt_buffer.length ∧
    (∃ buf', SmartLedsAdapter.write ⟨some 1, List.replicate 26 4, (1, 2)⟩ [⟨1, 2, 3⟩] .done
        = some ⟨.ok (), some 1, buf', [buf']⟩ ∧
      buf'.length = (List.replicate 26 4 : List Nat).length ∧
      (∀ j : Nat, 24 * ([⟨1, 2, 3⟩] : List RGB8).length < j →
        buf'[j]? = (List.replicate 26 4 : List Nat)[j]?)) :=
  ⟨rfl, by decide,
   c9_trailing_slots_unchanged ⟨some 1, List.replicate 26 4, (1, 2)⟩ [⟨1, 2, 3⟩] 1
     rfl (by decide)⟩

/-- C3 counterexample: the asynchronous `write` chunks the adapter's entire
fixed buffer, so an adapter whose buffer holds 50 words (capacity for two
LEDs) issues 2 transmit calls for a single supplied color, not 1. -/
theorem c3_transmit_count_counterexample :
    ([⟨0, 0, 0⟩] : List RGB8).length = 1 ∧
    (SmartLedsAdapterAsync.write ⟨0, List.replicate 50 0, (1, 2)⟩ [⟨0, 0, 0⟩]
        (fun _ => none)).transmits.length = 2 ∧
    (SmartLedsAdapterAsync.write ⟨0, List.replicate 50 0, (1, 2)⟩ [⟨0, 0, 0⟩]
        (fun _ => none)).transmits.length ≠ 1 := by
  decide

/-- C3 amended: provided the adapter's buffer length is exactly
`25 * n` (`buffer_size_async n`), an asynchronous write of `n` colors with a
fault-free peripheral issues exactly `n` transmit calls, in supply order,
each of exactly 25 words: the 24-pulse encoding of the i-th color followed by
one terminator word. -/
theorem c3_async_per_color_transmits (aa : SmartLedsAdapterAsync)
    (colors : List RGB8)
    (h : aa.rmt_buffer.length = 25 * colors.length) :
    ∃ buf' t, SmartLedsAdapterAsync.write aa colors (fun _ => none)
        = ⟨.ok (), buf', t⟩ ∧
      t.length = colors.length ∧
      (∀ i : Nat, (hi : i < colors.length) → ∃ chunk, t[i]? = some chunk ∧
        chunk.length = 25 ∧
        (∀ j : Nat, j < 24 →
          chunk[j]? = some (expectedWord colors[i] aa.pulses j)) ∧
        chunk[24]? = some 0) := by
  have hal : ((colors.map fun c => rgbPulseList c aa.pulses ++ [0]).flatten).length
      = 25 * colors.length := asyncPulseList_length colors aa.pulses
  obtain ⟨buf', heq, hlen', hin, hout⟩ :=
    writeAllW_spec ((colors.map fun c => rgbPulseList c aa.pulses ++ [0]).flatten)
      aa.rmt_buffer 0 (by rw [hal]; omega)
  have hbuf : buf' = (colors.map fun c => rgbPulseList c aa.pulses ++ [0]).flatten := by
    apply List.ext_getElem?
    intro i
    by_cases hi : i < 25 * colors.length
    · have hx := hin i (by rw [hal]; omega)
      simpa using hx
    · have h1 : buf'[i]? = none :=
        List.getElem?_eq_none (by rw [hlen', h]; omega)
      have h2 : ((colors.map fun c => rgbPulseList c aa.pulses ++ [0]).flatten)[i]?
          = none := List.getElem?_eq_none (by rw [hal]; omega)
      rw [h1, h2]
  have hchunks : chunksOf 25 buf'
      = colors.map fun c => rgbPulseList c aa.pulses ++ [0] := by
    rw [hbuf]
    apply chunksOf_flatten 25 (by omega)
    intro b hb
    obtain ⟨c, _, rfl⟩ := List.mem_map.mp hb
    rw [List.length_append, rgbPulseList_length]
    rfl
  have hw : SmartLedsAdapterAsync.write aa colors (fun _ => none)
      = ⟨.ok (), buf', colors.map fun c => rgbPulseList c aa.pulses ++ [0]⟩ := by
    simp only [SmartLedsAdapterAsync.write, prepare_rmt_buffer_eq, heq]
    have h25 : RMT_RAM_ONE_LED + 1 = 25 := rfl
    rw [h25, hchunks, asyncTransmitLoop_none]
  refine ⟨buf', colors.map fun c => rgbPulseList c aa.pulses ++ [0], hw,
    List.length_map _ _, ?_⟩
  intro i hi
  refine ⟨rgbPulseList colors[i] aa.pulses ++ [0], ?_, ?_, ?_, ?_⟩
  · rw [List.getElem?_map, List.getElem?_eq_getElem hi]
    rfl
  · rw [List.length_append, rgbPulseList_length]
    rfl
  · intro j hj
    rw [List.getElem?_append_left (by rw [rgbPulseList_length]; omega)]
    exact rgbPulseList_getElem _ aa.pulses j (by omega)
  · rw [List.getElem?_append_right (by rw [rgbPulseList_length]),
      rgbPulseList_length]
    rfl

theorem c3_async_per_color_transmits_witness :
    (⟨0, List.replicate 25 0, (1, 2)⟩ : SmartLedsAdapterAsync).rmt_buffer.length
      = 25 * ([⟨9, 9, 9⟩] : List RGB8).length ∧
    (∃ buf' t, SmartLedsAdapterAsync.write ⟨0, List.replicate 25 0, (1, 2)⟩
        [⟨9, 9, 9⟩] (fun _ => none) = ⟨.ok (), buf', t⟩ ∧
      t.length = ([⟨9, 9, 9⟩] : List RGB8).length ∧
      (∀ i : Nat, (hi : i < ([⟨9, 9, 9⟩] : List RGB8).length) →
        ∃ chunk, t[i]? = some chunk ∧
          chunk.length = 25 ∧
          (∀ j : Nat, j < 24 →
            chunk[j]? = some (expectedWord ([⟨9, 9, 9⟩] : List RGB8)[i]
              (⟨0, List.replicate 25 0, (1, 2)⟩ : SmartLedsAdapterAsync).pulses j)) ∧
          chunk[24]? = some 0)) :=
  ⟨by decide,
   c3_async_per_color_transmits ⟨0, List.replicate 25 0, (1, 2)⟩ [⟨9, 9, 9⟩]
     (by decide)⟩

/-- C4 counterexample: when starting the transmission itself fails (the `?`
on `channel.transmit(&buf)?`), the early return skips the channel
restoration: afterwards the adapter's channel field is `none`, not
`some ch`, so the adapter does not still hold its channel after this
transmission failure (a subsequent write would panic on `unwrap`). -/
theorem c4_channel_lost_counterexample :
    SmartLedsAdapter.write ⟨some 0, [5], (1, 2)⟩ [] (.startFail (.code 7))
      = some ⟨.error (.TransmissionError (.code 7)), none, [0], [[0]]⟩ ∧
    Option.map SyncWriteOutput.channel
        (SmartLedsAdapter.write ⟨some 0, [5], (1, 2)⟩ [] (.startFail (.code 7)))
      = some none := by
  constructor
  · rfl
  · rfl

/-- C4 amended: when the transmission is started successfully and then fails
at `wait()`, the channel is restored to the adapter - so a subsequent write
is possible - and the call returns the wrapped cause; but when `transmit`
itself fails to start, the same error is returned while the channel is
lost. -/
theorem c4_channel_restored_on_wait_failure (a : SmartLedsAdapter)
    (colors : List RGB8) (ch : Nat) (e : RmtError)
    (hch : a.channel = some ch)
    (hlen : 24 * colors.length + 1 ≤ a.rmt_buffer.length) :
    ∃ buf', SmartLedsAdapter.write a colors (.waitFail e)
        = some ⟨.error (.TransmissionError e), some ch, buf', [buf']⟩ ∧
      SmartLedsAdapter.write a colors (.startFail e)
        = some ⟨.error (.TransmissionError e), none, buf', [buf']⟩ := by
  have hsl : ((colors.map fun c => rgbPulseList c a.pulses).flatten ++ [0]).length
      = 24 * colors.length + 1 := by
    rw [List.length_append, syncPulseList_length, List.length_cons, List.length_nil]
  obtain ⟨buf', heq, -, -, -⟩ :=
    writeAllW_spec ((colors.map fun c => rgbPulseList c a.pulses).flatten ++ [0])
      a.rmt_buffer 0 (by rw [hsl]; omega)
  refine ⟨buf', ?_, ?_⟩
  · simp only [SmartLedsAdapter.write, sync_fill_buffer_eq, heq, hch]
  · simp only [SmartLedsAdapter.write, sync_fill_buffer_eq, heq, hch]

theorem c4_channel_restored_on_wait_failure_witness :
    (⟨some 2, List.replicate 25 0, (1, 2)⟩ : SmartLedsAdapter).channel = some 2 ∧
    24 * ([⟨1, 2, 3⟩] : List RGB8).length + 1
      ≤ (⟨some 2, List.replicate 25 0, (1, 2)⟩ : SmartLedsAdapter).rmt_buffer.length ∧
    (∃ buf', SmartLedsAdapter.write ⟨some 2, List.replicate 25 0, (1, 2)⟩
        [⟨1, 2, 3⟩] (.waitFail (.code 5))
        = some ⟨.error (.TransmissionError (.code 5)), some 2, buf', [buf']⟩ ∧
      SmartLedsAdapter.write ⟨some 2, List.replicate 25 0, (1, 2)⟩
        [⟨1, 2, 3⟩] (.startFail (.code 5))
        = some ⟨.error (.TransmissionError (.code 5)), none, buf', [buf']⟩) :=
  ⟨rfl, by decide,
   c4_channel_restored_on_wait_failure ⟨some 2, List.replicate 25 0, (1, 2)⟩
     [⟨1, 2, 3⟩] 2 (.code 5) rfl (by decide)⟩
